import Mathlib

/-!
Shallow embedding of the broker-connectivity and market-data core of the
forex-trade repository (BrokerIntegration and MarketDataService, plus the
market-data request validator).

Modelling conventions:
- JavaScript numbers are modelled as rationals (`ℚ`); the claims under
  study are algebraic and do not depend on floating-point rounding.
- A JavaScript `Map` is modelled as an association list `List (String × α)`
  preserving insertion order: `Map.get` is `getEntry`, `Map.set` is
  `setEntry` (update-in-place for an existing key, append otherwise),
  `Map.delete` is `deleteEntry`.
- Network I/O steps (HTTP calls, socket setup) are modelled by injecting
  their outcomes as `Except String α` parameters; wall-clock reads
  (`Date.now()`, `new Date()`) are injected as explicit `now` parameters.
- All functions are pure Lean functions, which captures the determinism
  and absence of side effects of the corresponding source functions.
-/

namespace ForexTrade

/-- Lookup in an association list modelling `Map.prototype.get`. -/
def getEntry {α : Type} : List (String × α) → String → Option α
  | [], _ => none
  | (k, v) :: es, key => if k = key then some v else getEntry es key

/-- Update modelling `Map.prototype.set`: replaces the value of an existing
key in place (preserving insertion order), appends a new entry otherwise. -/
def setEntry {α : Type} : List (String × α) → String → α → List (String × α)
  | [], key, v => [(key, v)]
  | (k, w) :: es, key, v =>
      if k = key then (k, v) :: es else (k, w) :: setEntry es key v

/-- Removal modelling `Map.prototype.delete` (no-op when the key is absent). -/
def deleteEntry {α : Type} : List (String × α) → String → List (String × α)
  | [], _ => []
  | (k, v) :: es, key =>
      if k = key then deleteEntry es key else (k, v) :: deleteEntry es key

theorem getEntry_setEntry_self {α : Type} (l : List (String × α)) (key : String) (v : α) :
    getEntry (setEntry l key v) key = some v := by
  induction l with
  | nil => simp [setEntry, getEntry]
  | cons p t ih =>
    obtain ⟨k, w⟩ := p
    by_cases hk : k = key
    · simp [setEntry, getEntry, hk]
    · simp [setEntry, getEntry, hk, ih]

theorem getEntry_deleteEntry_self {α : Type} (l : List (String × α)) (key : String) :
    getEntry (deleteEntry l key) key = none := by
  induction l with
  | nil => rfl
  | cons p t ih =>
    obtain ⟨k, w⟩ := p
    by_cases hk : k = key
    · simp [deleteEntry, hk, ih]
    · simp [deleteEntry, getEntry, hk, ih]

theorem deleteEntry_of_getEntry_none {α : Type} (l : List (String × α)) (key : String)
    (h : getEntry l key = none) : deleteEntry l key = l := by
  induction l with
  | nil => rfl
  | cons p t ih =>
    obtain ⟨k, w⟩ := p
    by_cases hk : k = key
    · simp [getEntry, hk] at h
    · simp [getEntry, hk] at h
      simp [deleteEntry, hk, ih h]

/-- A Position as kept in `connection.positions` (values of the Map). -/
structure Position where
  positionId : String
  symbol : String
  side : String
  units : ℚ
  averagePrice : ℚ
  currentPrice : ℚ
  unrealizedPnL : ℚ
  deriving DecidableEq

/-- Embedding of `BrokerIntegration.calculateUnrealizedPnL(position, currentPrice)`:
destructures side, units and averagePrice from the position and branches on
`side === 'BUY'`. -/
def calculateUnrealizedPnL (position : Position) (currentPrice : ℚ) : ℚ :=
  if position.side = "BUY" then
    (currentPrice - position.averagePrice) * position.units
  else
    (position.averagePrice - currentPrice) * position.units

/-- C1: for every Position and price, `calculateUnrealizedPnL` returns
(currentPrice − averagePrice) × units when the side is BUY and
(averagePrice − currentPrice) × units otherwise, and returns 0 whenever
units is 0. Determinism and absence of side effects hold because the
embedding is a pure function, exactly as the source function is. -/
theorem calculateUnrealizedPnL_spec (position : Position) (currentPrice : ℚ) :
    (position.side = "BUY" →
      calculateUnrealizedPnL position currentPrice =
        (currentPrice - position.averagePrice) * position.units) ∧
    (position.side ≠ "BUY" →
      calculateUnrealizedPnL position currentPrice =
        (position.averagePrice - currentPrice) * position.units) ∧
    (position.units = 0 → calculateUnrealizedPnL position currentPrice = 0) := by
  refine ⟨fun h => ?_, fun h => ?_, fun h => ?_⟩
  · simp [calculateUnrealizedPnL, h]
  · simp [calculateUnrealizedPnL, h]
  · unfold calculateUnrealizedPnL
    split_ifs <;> simp [h]

/-- Witness for C1 at a concrete long position of 1000 units bought at 1.1000,
evaluated at price 1.1050. -/
theorem calculateUnrealizedPnL_spec_witness :
    calculateUnrealizedPnL
        { positionId := "p1", symbol := "EUR_USD", side := "BUY", units := 1000,
          averagePrice := 11/10, currentPrice := 0, unrealizedPnL := 0 }
        (1105/1000) =
      ((1105/1000 : ℚ) - 11/10) * 1000 :=
  (calculateUnrealizedPnL_spec _ _).1 rfl

/-- An Order as kept in `connection.orders` (values of the Map). -/
structure Order where
  orderId : String
  symbol : String
  side : String
  units : ℚ
  type : String
  price : Option ℚ
  stopLoss : Option ℚ
  takeProfit : Option ℚ
  deriving DecidableEq

/-- A transaction event payload as delivered on the `transaction` socket
channel. `type`, `positionId` and `orderId` are the fields the handlers
read; the optional fields model the own enumerable properties that
`Object.assign(position, transactionData)` copies onto a position. -/
structure TransactionData where
  type : String
  positionId : String
  orderId : String
  symbol : Option String
  side : Option String
  units : Option ℚ
  averagePrice : Option ℚ
  currentPrice : Option ℚ
  unrealizedPnL : Option ℚ
  deriving DecidableEq

/-- Effect of `Object.assign(position, transactionData)`: every property
present on the event overwrites the position's field; absent properties
leave the field unchanged. -/
def mergePosition (position : Position) (transactionData : TransactionData) : Position :=
  { positionId := transactionData.positionId
    symbol := transactionData.symbol.getD position.symbol
    side := transactionData.side.getD position.side
    units := transactionData.units.getD position.units
    averagePrice := transactionData.averagePrice.getD position.averagePrice
    currentPrice := transactionData.currentPrice.getD position.currentPrice
    unrealizedPnL := transactionData.unrealizedPnL.getD position.unrealizedPnL }

/-- Discovery response account (first element of `response.data.accounts`). -/
structure Account where
  id : String
  deriving DecidableEq

/-- Account-detail response stored as `connection.accountInfo`. -/
structure AccountInfo where
  accountId : String
  balance : ℚ
  deriving DecidableEq

/-- An opened streaming socket stored as `connection.stream`. -/
structure StreamHandle where
  url : String
  deriving DecidableEq

/-- A broker connection object as built by `connectToBroker` and stored in
`this.connections`. -/
structure Connection where
  brokerId : String
  isDemo : Bool
  baseUrl : String
  streamUrl : String
  connected : Bool
  account : Option Account
  accountInfo : Option AccountInfo
  stream : Option StreamHandle
  positions : List (String × Position)
  orders : List (String × Order)
  deriving DecidableEq

/-- Embedding of `BrokerIntegration.updatePosition(connection, transactionData)`:
looks the position up by `transactionData.positionId`; when present, merges the
event's fields into it (`Object.assign`) and stores it back under the same key;
when absent, does nothing. -/
def updatePosition (connection : Connection) (transactionData : TransactionData) : Connection :=
  match getEntry connection.positions transactionData.positionId with
  | some position =>
      { connection with
          positions := setEntry connection.positions transactionData.positionId
            (mergePosition position transactionData) }
  | none => connection

/-- Embedding of `BrokerIntegration.cancelOrder(connection, transactionData)`:
deletes the order keyed by `transactionData.orderId` from `connection.orders`. -/
def cancelOrder (connection : Connection) (transactionData : TransactionData) : Connection :=
  { connection with orders := deleteEntry connection.orders transactionData.orderId }

/-- Embedding of `BrokerIntegration.handleTransactionUpdate(connection, data)`:
dispatches on `data.type`, delegating `ORDER_FILL` to `updatePosition` and
`ORDER_CANCEL` to `cancelOrder`; all other types are ignored. -/
def handleTransactionUpdate (connection : Connection) (data : TransactionData) : Connection :=
  if data.type = "ORDER_FILL" then updatePosition connection data
  else if data.type = "ORDER_CANCEL" then cancelOrder connection data
  else connection

/-- A working order used in the C2 scenarios. -/
def orderO1 : Order :=
  { orderId := "o1", symbol := "EUR_USD", side := "BUY", units := 1000,
    type := "MARKET", price := none, stopLoss := none, takeProfit := none }

/-- A fill event whose positionId is absent from the ledger. -/
def fillAbsent : TransactionData :=
  { type := "ORDER_FILL", positionId := "p1", orderId := "o1",
    symbol := some "EUR_USD", side := some "BUY", units := some 1000,
    averagePrice := some 1, currentPrice := none, unrealizedPnL := none }

/-- A connection with no open positions and one working order `o1`. -/
def connNoPositions : Connection :=
  { brokerId := "oanda", isDemo := true, baseUrl := "", streamUrl := "",
    connected := true, account := none, accountInfo := none, stream := none,
    positions := [], orders := [("o1", orderO1)] }

/-- An open long position of 1000 units. -/
def posP1 : Position :=
  { positionId := "p1", symbol := "EUR_USD", side := "BUY", units := 1000,
    averagePrice := 1, currentPrice := 1, unrealizedPnL := 0 }

/-- A fill event against position `p1` whose resulting units are 0. -/
def fillZero : TransactionData :=
  { type := "ORDER_FILL", positionId := "p1", orderId := "o1",
    symbol := none, side := none, units := some 0,
    averagePrice := none, currentPrice := none, unrealizedPnL := none }

/-- A connection holding position `p1` and working order `o1`. -/
def connWithP1 : Connection :=
  { brokerId := "oanda", isDemo := true, baseUrl := "", streamUrl := "",
    connected := true, account := none, accountInfo := none, stream := none,
    positions := [("p1", posP1)], orders := [("o1", orderO1)] }

/-- C2 counterexample: on a fill event (a) whose positionId is absent, the
handler creates nothing and removes no order — the state is unchanged; and
(b) whose merged units equal 0, the zero-unit position is kept in the ledger
and the corresponding order is still not removed. This refutes all three
upsert obligations of the claim (create-if-absent, remove-at-zero-units,
remove-the-order). -/
theorem handleTransactionUpdate_fill_counterexample :
    handleTransactionUpdate connNoPositions fillAbsent = connNoPositions ∧
    (handleTransactionUpdate connWithP1 fillZero).positions =
      [("p1", { posP1 with units := 0 })] ∧
    (handleTransactionUpdate connWithP1 fillZero).orders = [("o1", orderO1)] := by
  refine ⟨rfl, ?_, rfl⟩
  decide

/-- C2 (amended): on a fill transaction event the handler merges the event's
fields into the existing Position with that positionId and is a no-op when no
such position exists; it never creates a missing position, never removes a
zero-unit position, and leaves the working order set untouched. -/
theorem handleTransactionUpdate_fill_spec (connection : Connection)
    (data : TransactionData) (hType : data.type = "ORDER_FILL") :
    (getEntry connection.positions data.positionId = none →
        handleTransactionUpdate connection data = connection) ∧
    (∀ p, getEntry connection.positions data.positionId = some p →
        handleTransactionUpdate connection data =
          { connection with
              positions := setEntry connection.positions data.positionId
                (mergePosition p data) }) ∧
    (handleTransactionUpdate connection data).orders = connection.orders := by
  unfold handleTransactionUpdate updatePosition
  refine ⟨fun h => ?_, fun p h => ?_, ?_⟩
  · simp [hType, h]
  · simp [hType, h]
  · simp only [hType, if_pos]
    cases h : getEntry connection.positions data.positionId <;> simp [h]

/-- Witness for C2's amended theorem at the concrete absent-position scenario. -/
theorem handleTransactionUpdate_fill_spec_witness :
    handleTransactionUpdate connNoPositions fillAbsent = connNoPositions :=
  (handleTransactionUpdate_fill_spec connNoPositions fillAbsent rfl).1 rfl

/-- C5: applying a cancel transaction event twice yields the same order set as
applying it once, and applying it when the order id is absent leaves the
connection unchanged. -/
theorem cancelOrder_idempotent (connection : Connection) (transactionData : TransactionData) :
    cancelOrder (cancelOrder connection transactionData) transactionData =
      cancelOrder connection transactionData ∧
    (getEntry connection.orders transactionData.orderId = none →
      cancelOrder connection transactionData = connection) := by
  constructor
  · unfold cancelOrder
    simp [deleteEntry_of_getEntry_none _ _ (getEntry_deleteEntry_self connection.orders _)]
  · intro h
    unfold cancelOrder
    simp [deleteEntry_of_getEntry_none _ _ h]

/-- Witness for C5 at a concrete connection: cancelling order `o1` twice
equals cancelling once, and cancelling the absent order `zzz` is a no-op. -/
theorem cancelOrder_idempotent_witness :
    (cancelOrder (cancelOrder connWithP1 fillZero) fillZero =
        cancelOrder connWithP1 fillZero) ∧
    cancelOrder connNoPositions
        { fillZero with type := "ORDER_CANCEL", orderId := "zzz" } =
      connNoPositions :=
  ⟨(cancelOrder_idempotent connWithP1 fillZero).1,
   (cancelOrder_idempotent connNoPositions _).2 rfl⟩

/-- The OANDA entry of `this.brokers` (the only configured broker). No live
endpoints are configured, so the live mode falls back to `baseUrl`/`streamUrl`
through the `||` defaults. -/
structure BrokerConfig where
  name : String
  baseUrl : String
  streamUrl : String
  demoUrl : Option String
  demoStreamUrl : Option String
  liveUrl : Option String
  liveStreamUrl : Option String
  deriving DecidableEq

def oandaBroker : BrokerConfig :=
  { name := "OANDA"
    baseUrl := "https://api-fxtrade.oanda.com"
    streamUrl := "https://stream-fxtrade.oanda.com"
    demoUrl := some "https://api-fxpractice.oanda.com"
    demoStreamUrl := some "https://stream-fxpractice.oanda.com"
    liveUrl := none
    liveStreamUrl := none }

/-- Embedding of `BrokerIntegration.connectToBroker(brokerId, credentials, isDemo)`.
The three awaited steps — `authenticate` (accounts discovery, sets
`connection.account` and `connection.connected`), `getAccountInfo` (sets
`connection.accountInfo`) and `connectToStream` (sets `connection.stream`) —
are network calls whose outcomes are injected as `Except` parameters; a thrown
error in the source is `Except.error` here. Only after all three succeed does
the source run `this.connections.set(brokerId, connection)`; on any throw the
catch block rethrows and the registry is never touched. The function returns
the result together with the resulting registry. -/
def connectToBroker (connections : List (String × Connection)) (brokerId : String)
    (isDemo : Bool) (authOutcome : Except String Account)
    (accountInfoOutcome : Except String AccountInfo)
    (streamOutcome : Except String StreamHandle) :
    Except String Connection × List (String × Connection) :=
  if brokerId = "oanda" then
    let broker := oandaBroker
    match authOutcome with
    | Except.error e => (Except.error e, connections)
    | Except.ok account =>
      match accountInfoOutcome with
      | Except.error e => (Except.error e, connections)
      | Except.ok info =>
        match streamOutcome with
        | Except.error e => (Except.error e, connections)
        | Except.ok stream =>
          let connection : Connection :=
            { brokerId := brokerId
              isDemo := isDemo
              baseUrl := if isDemo then broker.demoUrl.getD broker.baseUrl
                         else broker.liveUrl.getD broker.baseUrl
              streamUrl := if isDemo then broker.demoStreamUrl.getD broker.streamUrl
                           else broker.liveStreamUrl.getD broker.streamUrl
              connected := true
              account := some account
              accountInfo := some info
              stream := some stream
              positions := []
              orders := [] }
          (Except.ok connection, setEntry connections brokerId connection)
  else (Except.error "Only OANDA is supported", connections)

/-- C3: if the broker id is unsupported or any connect step (authentication,
account-detail fetch, stream setup) fails, `connectToBroker` fails with an
error and the connections registry is returned unchanged — no partial
connection is registered. -/
theorem connectToBroker_failure_spec (connections : List (String × Connection))
    (brokerId : String) (isDemo : Bool) (authOutcome : Except String Account)
    (accountInfoOutcome : Except String AccountInfo)
    (streamOutcome : Except String StreamHandle)
    (hFail : brokerId ≠ "oanda" ∨ (∃ e, authOutcome = Except.error e) ∨
      (∃ e, accountInfoOutcome = Except.error e) ∨
      (∃ e, streamOutcome = Except.error e)) :
    (∃ e, (connectToBroker connections brokerId isDemo authOutcome
        accountInfoOutcome streamOutcome).1 = Except.error e) ∧
    (connectToBroker connections brokerId isDemo authOutcome
        accountInfoOutcome streamOutcome).2 = connections := by
  by_cases hB : brokerId = "oanda"
  · cases authOutcome with
    | error e => simp [connectToBroker, hB]
    | ok account =>
      cases accountInfoOutcome with
      | error e => simp [connectToBroker, hB]
      | ok info =>
        cases streamOutcome with
        | error e => simp [connectToBroker, hB]
        | ok stream =>
          rcases hFail with h | ⟨e, h⟩ | ⟨e, h⟩ | ⟨e, h⟩ <;> simp_all
  · simp [connectToBroker, hB]

/-- Witness for C3: a failed authentication against an empty registry leaves
the registry empty and returns an error. -/
theorem connectToBroker_failure_spec_witness :
    (∃ e, (connectToBroker [] "oanda" true (Except.error "OANDA authentication failed")
        (Except.ok { accountId := "a1", balance := 0 })
        (Except.ok { url := "wss" })).1 = Except.error e) ∧
    (connectToBroker [] "oanda" true (Except.error "OANDA authentication failed")
        (Except.ok { accountId := "a1", balance := 0 })
        (Except.ok { url := "wss" })).2 = ([] : List (String × Connection)) :=
  connectToBroker_failure_spec [] "oanda" true _ _ _
    (Or.inr (Or.inl ⟨"OANDA authentication failed", rfl⟩))

/-- A pre-existing registered connection for broker id `oanda`. -/
def oldConn : Connection :=
  { brokerId := "oanda", isDemo := true, baseUrl := "old", streamUrl := "old",
    connected := true, account := some { id := "acct-old" }, accountInfo := none,
    stream := none, positions := [], orders := [] }

/-- C6 counterexample: with a connection already registered under `oanda`,
calling `connectToBroker` again is not a no-op: it runs the full connect
sequence (consuming a fresh authentication outcome), returns a connection that
is not the existing one, and overwrites the registry entry. -/
theorem connectToBroker_existing_counterexample :
    (connectToBroker [("oanda", oldConn)] "oanda" true
        (Except.ok { id := "acct-new" })
        (Except.ok { accountId := "acct-new", balance := 0 })
        (Except.ok { url := "wss" })).1 ≠ Except.ok oldConn ∧
    getEntry (connectToBroker [("oanda", oldConn)] "oanda" true
        (Except.ok { id := "acct-new" })
        (Except.ok { accountId := "acct-new", balance := 0 })
        (Except.ok { url := "wss" })).2 "oanda" ≠ some oldConn := by
  constructor <;> intro h <;>
    simp [connectToBroker, oldConn, oandaBroker, getEntry, setEntry] at h

/-- C6 (amended): calling connect for an id that already has a registered
connection is not a no-op that returns the existing connection: when every
step succeeds it re-authenticates (the new connection carries the freshly
discovered account), builds a new connection and overwrites the registry
entry with it. -/
theorem connectToBroker_reconnect_spec (connections : List (String × Connection))
    (isDemo : Bool) (account : Account) (info : AccountInfo) (stream : StreamHandle)
    (_hExisting : ∃ c, getEntry connections "oanda" = some c) :
    ∃ newConn,
      (connectToBroker connections "oanda" isDemo (Except.ok account)
          (Except.ok info) (Except.ok stream)).1 = Except.ok newConn ∧
      newConn.account = some account ∧
      newConn.connected = true ∧
      getEntry (connectToBroker connections "oanda" isDemo (Except.ok account)
          (Except.ok info) (Except.ok stream)).2 "oanda" = some newConn := by
  refine ⟨_, rfl, rfl, rfl, ?_⟩
  simp [connectToBroker, getEntry_setEntry_self]

/-- Witness for C6's amended theorem at the concrete pre-populated registry. -/
theorem connectToBroker_reconnect_spec_witness :
    ∃ newConn,
      (connectToBroker [("oanda", oldConn)] "oanda" true
          (Except.ok { id := "acct-new" })
          (Except.ok { accountId := "acct-new", balance := 0 })
          (Except.ok { url := "wss" })).1 = Except.ok newConn ∧
      newConn.account = some { id := "acct-new" } ∧
      newConn.connected = true ∧
      getEntry (connectToBroker [("oanda", oldConn)] "oanda" true
          (Except.ok { id := "acct-new" })
          (Except.ok { accountId := "acct-new", balance := 0 })
          (Except.ok { url := "wss" })).2 "oanda" = some newConn :=
  connectToBroker_reconnect_spec [("oanda", oldConn)] true _ _ _ ⟨oldConn, rfl⟩

/-- Order parameters destructured by `placeOandaOrder`; `type` defaults to
`MARKET` when absent, and `price`, `stopLoss`, `takeProfit` may be omitted. -/
structure OrderParams where
  symbol : String
  side : String
  units : ℚ
  type : Option String
  price : Option ℚ
  stopLoss : Option ℚ
  takeProfit : Option ℚ
  deriving DecidableEq

/-- The `order` object of the venue payload posted by `placeOandaOrder`;
optional fields are `none` when the corresponding key is absent. -/
structure OandaOrder where
  type : String
  instrument : String
  units : ℚ
  timeInForce : String
  positionFill : String
  price : Option ℚ
  stopLossOnFill : Option ℚ
  takeProfitOnFill : Option ℚ
  deriving DecidableEq

/-- JavaScript truthiness of an optional numeric value: `undefined` and `0`
are falsy, every other number is truthy. -/
def truthyNum : Option ℚ → Bool
  | none => false
  | some v => decide (v ≠ 0)

/-- Embedding of the payload construction in
`BrokerIntegration.placeOandaOrder(connection, orderParams)`: builds the base
`order` object with signed units (`side === 'BUY' ? units : -units`), then
adds `price` when `type === 'LIMIT' && price` is truthy, `stopLossOnFill`
when `stopLoss` is truthy and `takeProfitOnFill` when `takeProfit` is truthy.
The HTTP POST of the payload is network I/O outside the embedding; the
function returns the payload the source would send. -/
def placeOandaOrder (orderParams : OrderParams) : OandaOrder :=
  let type := orderParams.type.getD "MARKET"
  let base : OandaOrder :=
    { type := type
      instrument := orderParams.symbol
      units := if orderParams.side = "BUY" then orderParams.units else -orderParams.units
      timeInForce := "FOK"
      positionFill := "DEFAULT"
      price := none
      stopLossOnFill := none
      takeProfitOnFill := none }
  let afterPrice :=
    if type = "LIMIT" ∧ truthyNum orderParams.price = true then
      { base with price := orderParams.price }
    else base
  let afterStopLoss :=
    if truthyNum orderParams.stopLoss = true then
      { afterPrice with stopLossOnFill := orderParams.stopLoss }
    else afterPrice
  if truthyNum orderParams.takeProfit = true then
    { afterStopLoss with takeProfitOnFill := orderParams.takeProfit }
  else afterStopLoss

/-- A LIMIT order whose supplied price is 0 (falsy in JavaScript). -/
def limitZeroPrice : OrderParams :=
  { symbol := "EUR_USD", side := "BUY", units := 1000, type := some "LIMIT",
    price := some 0, stopLoss := none, takeProfit := none }

/-- C7 counterexample: for a LIMIT order with a supplied price of 0 the
payload omits the price field even though the order type is LIMIT and a price
is supplied — the `type === 'LIMIT' && price` guard tests JavaScript
truthiness, not presence. -/
theorem placeOandaOrder_price_counterexample :
    (placeOandaOrder limitZeroPrice).price = none ∧
    limitZeroPrice.type = some "LIMIT" ∧
    limitZeroPrice.price.isSome = true := by
  decide

/-- C7 (amended): the payload's units are +units for BUY and −units
otherwise; the price field is included (with the supplied value) exactly when
the effective type is LIMIT and the supplied price is truthy (present and
non-zero); the stop-loss and take-profit blocks are included exactly when the
supplied values are truthy (present and non-zero). -/
theorem placeOandaOrder_payload_spec (orderParams : OrderParams) :
    ((placeOandaOrder orderParams).units =
        if orderParams.side = "BUY" then orderParams.units else -orderParams.units) ∧
    ((placeOandaOrder orderParams).price =
        if orderParams.type.getD "MARKET" = "LIMIT" ∧ truthyNum orderParams.price = true
        then orderParams.price else none) ∧
    ((placeOandaOrder orderParams).stopLossOnFill =
        if truthyNum orderParams.stopLoss = true then orderParams.stopLoss else none) ∧
    ((placeOandaOrder orderParams).takeProfitOnFill =
        if truthyNum orderParams.takeProfit = true then orderParams.takeProfit else none) := by
  by_cases h1 : orderParams.type.getD "MARKET" = "LIMIT" ∧ truthyNum orderParams.price = true <;>
    by_cases h2 : truthyNum orderParams.stopLoss = true <;>
      by_cases h3 : truthyNum orderParams.takeProfit = true <;>
        simp [placeOandaOrder, h1, h2, h3]

/-- An inbound `price` socket event as read by `processRealTimeData`:
`instrument`, `price`, `bid`, `ask` are always read; `volume`, `change` and
`change_percent` may be absent (defaulted to 0 through `||`). -/
structure PriceEvent where
  instrument : String
  price : ℚ
  bid : ℚ
  ask : ℚ
  volume : Option ℚ
  change : Option ℚ
  changePercent : Option ℚ
  deriving DecidableEq

/-- A market snapshot as produced by `processRealTimeData` (a Tick, whose
`timeframe` is `none`) or stored in the cache. The source stamps
`timestamp := new Date().toISOString()`; the wall-clock string is injected as
a parameter. -/
structure MarketData where
  symbol : String
  timeframe : Option String
  price : ℚ
  bid : ℚ
  ask : ℚ
  spread : ℚ
  timestamp : String
  volume : ℚ
  change : ℚ
  changePercent : ℚ
  deriving DecidableEq

/-- Embedding of `MarketDataService.processRealTimeData(data)`: builds the
Tick field by field; `spread` is computed as `ask − bid` with no clamping. -/
def processRealTimeData (data : PriceEvent) (now : String) : MarketData :=
  { symbol := data.instrument
    timeframe := none
    price := data.price
    bid := data.bid
    ask := data.ask
    spread := data.ask - data.bid
    timestamp := now
    volume := data.volume.getD 0
    change := data.change.getD 0
    changePercent := data.changePercent.getD 0 }

/-- An inverted quote: the venue reports bid 2 above ask 1. -/
def invertedQuote : PriceEvent :=
  { instrument := "EUR_USD", price := 3/2, bid := 2, ask := 1,
    volume := none, change := none, changePercent := none }

/-- C8 counterexample: on an inverted quote (bid 2, ask 1) the produced Tick
has spread −1, which is negative — the code neither clamps nor flags
inverted quotes. -/
theorem processRealTimeData_spread_counterexample :
    (processRealTimeData invertedQuote "t0").spread = -1 ∧
    (processRealTimeData invertedQuote "t0").spread < 0 := by
  constructor <;> norm_num [processRealTimeData, invertedQuote]

/-- C8 (amended): the Tick's spread always equals ask − bid; nothing clamps
or flags inverted quotes, so whenever the venue reports bid above ask the
spread is strictly negative. -/
theorem processRealTimeData_spread_spec (data : PriceEvent) (now : String) :
    (processRealTimeData data now).spread = data.ask - data.bid ∧
    (data.ask < data.bid → (processRealTimeData data now).spread < 0) := by
  refine ⟨rfl, fun h => ?_⟩
  simpa [processRealTimeData] using sub_neg.mpr h

/-- Witness for C8's amended theorem at the concrete inverted quote. -/
theorem processRealTimeData_spread_spec_witness :
    (processRealTimeData invertedQuote "t0").spread =
        invertedQuote.ask - invertedQuote.bid ∧
    (processRealTimeData invertedQuote "t0").spread < 0 :=
  ⟨(processRealTimeData_spread_spec invertedQuote "t0").1,
   (processRealTimeData_spread_spec invertedQuote "t0").2 (by norm_num [invertedQuote])⟩

/-- A cache slot: the stored snapshot plus the `Date.now()` (milliseconds)
at which it was written. -/
structure CacheEntry where
  data : MarketData
  timestamp : ℤ
  deriving DecidableEq

/-- The cache key string built by both cache functions. -/
def cacheKey (symbol : String) (timeframe : String) : String :=
  symbol ++ "_" ++ timeframe

/-- Embedding of `MarketDataService.updateCache(symbol, data)`: writes the
snapshot under key `symbol_(data.timeframe || 'realtime')` with the current
`Date.now()` injected as `now`, unconditionally overwriting any entry. -/
def updateCache (cache : List (String × CacheEntry)) (symbol : String)
    (data : MarketData) (now : ℤ) : List (String × CacheEntry) :=
  setEntry cache (cacheKey symbol (data.timeframe.getD "realtime"))
    { data := data, timestamp := now }

/-- Embedding of `MarketDataService.getCachedData(symbol, timeframe)`:
returns the entry under key `symbol_timeframe` only when it exists and
`Date.now() − cached.timestamp < 60000`; otherwise returns null. It is a pure
read — the stale entry is not deleted. -/
def getCachedData (cache : List (String × CacheEntry)) (symbol : String)
    (timeframe : String) (now : ℤ) : Option MarketData :=
  match getEntry cache (cacheKey symbol timeframe) with
  | some cached => if now - cached.timestamp < 60000 then some cached.data else none
  | none => none

/-- C4: a cache get returns a snapshot exactly when an entry exists under the
key and now − cachedAt is strictly under 60 seconds (60000 ms); a get
immediately after a put for the same key returns the exact snapshot that was
put; and a get 61 seconds after the put misses. The get is a pure function of
the cache, so it deletes nothing. -/
theorem getCachedData_spec (cache : List (String × CacheEntry))
    (symbol timeframe : String) (now : ℤ) (data : MarketData) :
    (∀ snap, getCachedData cache symbol timeframe now = some snap ↔
        ∃ e, getEntry cache (cacheKey symbol timeframe) = some e ∧
          now - e.timestamp < 60000 ∧ e.data = snap) ∧
    (data.timeframe = some timeframe →
        getCachedData (updateCache cache symbol data now) symbol timeframe now =
          some data) ∧
    (data.timeframe = some timeframe →
        getCachedData (updateCache cache symbol data now) symbol timeframe
          (now + 61000) = none) := by
  refine ⟨fun snap => ?_, fun h => ?_, fun h => ?_⟩
  · unfold getCachedData
    cases hE : getEntry cache (cacheKey symbol timeframe) with
    | none => simp [hE]
    | some e =>
      by_cases hT : now - e.timestamp < 60000 <;> simp [hT]
  · unfold getCachedData updateCache
    rw [h]
    simp [getEntry_setEntry_self]
  · unfold getCachedData updateCache
    rw [h]
    simp [getEntry_setEntry_self]

/-- A concrete one-hour snapshot used by the C4 witness. -/
def snapshot1h : MarketData :=
  { symbol := "EUR_USD", timeframe := some "1h", price := 1, bid := 1,
    ask := 1, spread := 0, timestamp := "t0", volume := 0, change := 0,
    changePercent := 0 }

/-- Witness for C4 at a concrete snapshot: put then get at the same instant
hits with the exact snapshot, and get 61000 ms later misses. -/
theorem getCachedData_spec_witness :
    (getCachedData (updateCache [] "EUR_USD" snapshot1h 1000) "EUR_USD" "1h" 1000 =
      some snapshot1h) ∧
    (getCachedData (updateCache [] "EUR_USD" snapshot1h 1000) "EUR_USD" "1h" 62000 =
      none) :=
  ⟨(getCachedData_spec [] "EUR_USD" "1h" 1000 snapshot1h).2.1 rfl,
   (getCachedData_spec [] "EUR_USD" "1h" 1000 snapshot1h).2.2 rfl⟩

/-- Embedding of `MarketDataService.convertTimeframe(timeframe)`: the lookup
table `conversions` maps exactly the seven keys below; `conversions[timeframe]
|| timeframe` falls back to the input itself for any other string (all mapped
values are non-empty strings, hence truthy). -/
def convertTimeframe (timeframe : String) : String :=
  if timeframe = "1m" then "M1"
  else if timeframe = "5m" then "M5"
  else if timeframe = "15m" then "M15"
  else if timeframe = "30m" then "M30"
  else if timeframe = "1h" then "H1"
  else if timeframe = "4h" then "H4"
  else if timeframe = "1d" then "D"
  else timeframe

/-- The `validTimeframes` array of `validateMarketDataRequest`. -/
def validTimeframes : List String :=
  ["1m", "5m", "15m", "30m", "1h", "4h", "1d", "1w", "1M"]

/-- The params object read by `validateMarketDataRequest`; absent properties
are `none`. The limit is an integer here, so the `Number.isInteger` test of
the source always passes. -/
structure MarketDataRequest where
  symbol : Option String
  timeframe : Option String
  limit : Option Int
  deriving DecidableEq

/-- The result object of `validateMarketDataRequest`: `isValid` together
with the per-field error messages collected in `errors`. -/
structure ValidationResult where
  isValid : Bool
  symbolError : Option String
  timeframeError : Option String
  limitError : Option String
  deriving DecidableEq

/-- Embedding of `validateMarketDataRequest(params)` from
`src/lib/utils/validation.js`. The `if (params.symbol)` and
`if (params.timeframe)` guards test JavaScript truthiness, so an absent or
empty-string value skips the corresponding branch. -/
def validateMarketDataRequest (params : MarketDataRequest) : ValidationResult :=
  let symbolError : Option String :=
    match params.symbol with
    | none => some "Symbol is required"
    | some s => if s = "" then some "Symbol is required" else none
  let timeframeError : Option String :=
    match params.timeframe with
    | none => none
    | some tf =>
        if tf = "" then none
        else if validTimeframes.contains tf then none
        else some "Timeframe must be one of the accepted tokens"
  let limitError : Option String :=
    match params.limit with
    | none => none
    | some n => if n < 1 ∨ n > 5000 then some "Limit must be an integer between 1 and 5000" else none
  { isValid := symbolError.isNone && timeframeError.isNone && limitError.isNone
    symbolError := symbolError
    timeframeError := timeframeError
    limitError := limitError }

/-- C10: the conversion maps exactly the seven tokens 1m, 5m, 15m, 30m, 1h,
4h, 1d to a venue granularity, and returns every other input string — in
particular the boundary-accepted tokens 1w and 1M — unchanged; the boundary
validator does accept 1w and 1M. -/
theorem convertTimeframe_spec (timeframe : String)
    (hNot : timeframe ∉ (["1m", "5m", "15m", "30m", "1h", "4h", "1d"] : List String)) :
    convertTimeframe timeframe = timeframe ∧
    convertTimeframe "1m" = "M1" ∧ convertTimeframe "5m" = "M5" ∧
    convertTimeframe "15m" = "M15" ∧ convertTimeframe "30m" = "M30" ∧
    convertTimeframe "1h" = "H1" ∧ convertTimeframe "4h" = "H4" ∧
    convertTimeframe "1d" = "D" ∧
    convertTimeframe "1w" = "1w" ∧ convertTimeframe "1M" = "1M" ∧
    (validateMarketDataRequest
        { symbol := some "EUR_USD", timeframe := some "1w", limit := none }).isValid = true ∧
    (validateMarketDataRequest
        { symbol := some "EUR_USD", timeframe := some "1M", limit := none }).isValid = true := by
  simp only [List.mem_cons, List.not_mem_nil, or_false, not_or] at hNot
  obtain ⟨h1, h2, h3, h4, h5, h6, h7⟩ := hNot
  refine ⟨?_, by decide, by decide, by decide, by decide, by decide, by decide,
    by decide, by decide, by decide, by decide, by decide⟩
  simp [convertTimeframe, h1, h2, h3, h4, h5, h6, h7]

/-- Witness for C10 at the boundary-accepted token 1w. -/
theorem convertTimeframe_spec_witness :
    convertTimeframe "1w" = "1w" ∧
    convertTimeframe "1m" = "M1" ∧ convertTimeframe "5m" = "M5" ∧
    convertTimeframe "15m" = "M15" ∧ convertTimeframe "30m" = "M30" ∧
    convertTimeframe "1h" = "H1" ∧ convertTimeframe "4h" = "H4" ∧
    convertTimeframe "1d" = "D" ∧
    convertTimeframe "1w" = "1w" ∧ convertTimeframe "1M" = "1M" ∧
    (validateMarketDataRequest
        { symbol := some "EUR_USD", timeframe := some "1w", limit := none }).isValid = true ∧
    (validateMarketDataRequest
        { symbol := some "EUR_USD", timeframe := some "1M", limit := none }).isValid = true :=
  convertTimeframe_spec "1w" (by decide)

/-- State of the `MarketDataService` streaming layer relevant to
reconnection: the symbols registered in `this.connections`, the reconnect
callbacks currently scheduled by `setTimeout(..., 5000)`, and the log of
`connectToStream` invocations in order. -/
structure MDState where
  connections : List String
  pending : List String
  attempts : List String
  deriving DecidableEq

/-- Events driving the streaming layer: an external call to
`connectToStream`, a socket `disconnect` handler firing after a network
drop, an explicit `MarketDataService.disconnect(symbol)`, and a scheduled
5-second reconnect timer firing. -/
inductive MDEvent where
  | connectRequest (symbol : String)
  | networkDrop (symbol : String)
  | explicitDisconnect (symbol : String)
  | timerFire (symbol : String)
  deriving DecidableEq

/-- Map-set behaviour on the key list: keep order, add if absent. -/
def addConn (l : List String) (s : String) : List String :=
  if l.contains s then l else l ++ [s]

/-- Map-delete behaviour on the key list. -/
def removeConn (l : List String) (s : String) : List String :=
  l.filter (fun x => x != s)

/-- One step of the streaming layer, translated from the source:
`connectToStream` registers the socket (`this.connections.set`) and is logged
as an attempt; the `disconnect` handler after a network drop schedules an
unconditional `setTimeout(() => this.connectToStream(symbol, callback), 5000)`;
`disconnect(symbol)` closes the socket and deletes the registry entry (it
does not cancel pending timers — no handle to them is kept); a firing timer
re-runs `connectToStream` unconditionally — the callback consults no
still-wanted flag and never checks `this.connections`. -/
def mdStep (st : MDState) (e : MDEvent) : MDState :=
  match e with
  | MDEvent.connectRequest s =>
      { st with connections := addConn st.connections s, attempts := st.attempts ++ [s] }
  | MDEvent.networkDrop s =>
      if st.connections.contains s then { st with pending := st.pending ++ [s] } else st
  | MDEvent.explicitDisconnect s =>
      if st.connections.contains s then
        { st with connections := removeConn st.connections s }
      else st
  | MDEvent.timerFire s =>
      if st.pending.contains s then
        { connections := addConn st.connections s
          pending := removeConn st.pending s
          attempts := st.attempts ++ [s] }
      else st

/-- Run of the streaming layer over a list of events. -/
def mdRun (st : MDState) : List MDEvent → MDState
  | [] => st
  | e :: es => mdRun (mdStep st e) es

/-- C9, evaluated at the failing input: connect a stream for EUR_USD, suffer
a network drop (which schedules a 5-second reconnect), explicitly disconnect
the symbol, then let the pending timer fire. The timer callback re-runs
`connectToStream` without any still-wanted check, so a second connect attempt
occurs after the explicit disconnect and the symbol is registered again. -/
theorem mdRun_reconnect_after_disconnect :
    mdRun { connections := [], pending := [], attempts := [] }
        [MDEvent.connectRequest "EUR_USD", MDEvent.networkDrop "EUR_USD",
         MDEvent.explicitDisconnect "EUR_USD", MDEvent.timerFire "EUR_USD"] =
      { connections := ["EUR_USD"], pending := [], attempts := ["EUR_USD", "EUR_USD"] } ∧
    (mdRun { connections := [], pending := [], attempts := [] }
        [MDEvent.connectRequest "EUR_USD", MDEvent.networkDrop "EUR_USD",
         MDEvent.explicitDisconnect "EUR_USD"]).connections = [] := by
  decide

end ForexTrade
